import Mathlib

/-!
Verification of the acquisitions authentication backend.

Shallow embedding of the repository sources:
- src/models/user.model.js (the drizzle users table schema) and the generated
  CREATE TABLE migration;
- src/server.js (the PORT computation);
- src/app.js (the GET / handler and the /api/auth mount);
- the auth service, routes, validation and cookie utilities, which are
  described by the repository documentation and the specification and are
  modelled from the specification where so noted.

Machine integers do not occur: ids, lengths and times are natural numbers in
the sources (JavaScript numbers used only as counters and millisecond
amounts), and strings are Lean strings.
-/

namespace Acquisitions

/-! ## Column-level schema embedding -/

/-- A SQL column type as used by the users table: serial, varchar with a
length bound, or timestamp. -/
inductive ColType
  | serialT
  | varcharT (len : Nat)
  | timestampT
deriving DecidableEq, BEq, Repr

/-- A column default: none, a string literal default, or DEFAULT now(). -/
inductive ColDefault
  | noDefault
  | defaultStr (s : String)
  | defaultNow
deriving DecidableEq, BEq, Repr

/-- One column of a table schema with its constraints. -/
structure Column where
  name : String
  ty : ColType
  primaryKey : Bool := false
  notNull : Bool := false
  unique : Bool := false
  dflt : ColDefault := .noDefault
deriving DecidableEq, BEq, Repr

/-- The users table, translated column by column from src/models/user.model.js:
id serial primary key; name varchar(256) not null; email varchar(256) not null
unique; password varchar(512) not null; role varchar(50) not null default
user; create_at and update_at timestamps defaulting to now(), not null. -/
def users : List Column :=
  [ { name := "id", ty := .serialT, primaryKey := true },
    { name := "name", ty := .varcharT 256, notNull := true },
    { name := "email", ty := .varcharT 256, notNull := true, unique := true },
    { name := "password", ty := .varcharT 512, notNull := true },
    { name := "role", ty := .varcharT 50, notNull := true,
      dflt := .defaultStr "user" },
    { name := "create_at", ty := .timestampT, notNull := true,
      dflt := .defaultNow },
    { name := "update_at", ty := .timestampT, notNull := true,
      dflt := .defaultNow } ]

/-- A column of the relation as the specification writes it: attributes the
specification states are `some`, attributes it leaves unstated are `none`. -/
structure SpecCol where
  name : String
  ty : ColType
  primaryKey : Option Bool := none
  notNull : Option Bool := none
  unique : Option Bool := none
  dflt : Option ColDefault := none
deriving DecidableEq, Repr

/-- The relation definition taken verbatim from the specification:
users(id PK serial, name varchar(256) not null, email varchar(256) not null
unique, password varchar(512) not null, role varchar(50) not null default
user, create_at timestamp default now(), update_at timestamp default now()). -/
def specUsers : List SpecCol :=
  [ { name := "id", ty := .serialT, primaryKey := some true },
    { name := "name", ty := .varcharT 256, notNull := some true },
    { name := "email", ty := .varcharT 256, notNull := some true,
      unique := some true },
    { name := "password", ty := .varcharT 512, notNull := some true },
    { name := "role", ty := .varcharT 50, notNull := some true,
      dflt := some (.defaultStr "user") },
    { name := "create_at", ty := .timestampT, dflt := some .defaultNow },
    { name := "update_at", ty := .timestampT, dflt := some .defaultNow } ]

/-- An attribute the specification states must match the code; an unstated
attribute constrains nothing. -/
def statedEq [BEq a] (o : Option a) (v : a) : Bool :=
  match o with
  | none => true
  | some x => x == v

/-- A code column realises a specification column when name and type agree
and every stated attribute agrees. -/
def colConforms (c : Column) (sc : SpecCol) : Bool :=
  c.name == sc.name && c.ty == sc.ty &&
  statedEq sc.primaryKey c.primaryKey && statedEq sc.notNull c.notNull &&
  statedEq sc.unique c.unique && statedEq sc.dflt c.dflt

/-- A table realises a specification relation when the columns correspond
one to one, in order. -/
def tableConforms (t : List Column) (sp : List SpecCol) : Bool :=
  t.length == sp.length && (List.zip t sp).all fun pr => colConforms pr.1 pr.2

/-- Look a column up by name. -/
def colOf (t : List Column) (n : String) : Option Column :=
  t.find? (fun c => c.name == n)

/-- Whether the named column carries a UNIQUE constraint. -/
def colUnique (t : List Column) (n : String) : Bool :=
  (colOf t n).elim false Column.unique

/-- The string-literal default of the named column, when it has one. -/
def colDefaultStr (t : List Column) (n : String) : Option String :=
  match colOf t n with
  | some c =>
    match c.dflt with
    | .defaultStr s => some s
    | _ => none
  | none => none

/-! ## Rows, store state and the auth operations -/

/-- One persisted row of the users relation. Timestamps are modelled as
natural-number instants. -/
structure UserRow where
  id : Nat
  name : String
  email : String
  password : String
  role : String
  create_at : Nat
  update_at : Nat
deriving DecidableEq, Repr

/-- The state of the credential store: the rows of the users relation plus
the serial counter feeding the id column. -/
structure StoreState where
  rows : List UserRow
  nextId : Nat
deriving DecidableEq, Repr

/-- The empty store after the migration ran: no rows, serial counter at 1. -/
def initState : StoreState := { rows := [], nextId := 1 }

/-- The error taxonomy of the auth flow (specification section 7). -/
inductive AuthError
  | UserAlreadyExists
  | UserNotFound
  | InvalidCredentials
  | StoreConflict
deriving DecidableEq, Repr

/-- Modelled from the spec: bcrypt hashing from src/services/auth.service.js,
which is not under src/. No claim proved here depends on any property of the
digest, so it is represented by an injective tagging of the plaintext. -/
def hashPassword (password : String) : String := "bcrypt:" ++ password

/-- Comparison of a plaintext against a stored digest, the counterpart of
hashPassword. -/
def comparePassword (password hashed : String) : Bool :=
  hashPassword password == hashed

/-- The validated signup input: name, email, password required, role
optional. Note that no timestamp is part of the input. -/
structure SignupData where
  name : String
  email : String
  password : String
  role : Option String
deriving DecidableEq, Repr

/-- Modelled from the spec: the credential store lookup findByEmail of
section 4.1 (the service code is not under src/). -/
def findByEmail (s : StoreState) (email : String) : Option UserRow :=
  s.rows.find? (fun u => u.email == email)

/-- Modelled from the spec: the store-level insert of section 4.1. It
enforces the UNIQUE constraints declared by the users schema (rejecting a
duplicate email with a store-level conflict) and applies the schema defaults:
the role default from the role column and now() for both timestamps. -/
def insertUser (s : StoreState) (d : SignupData) (now : Nat) :
    Except AuthError (StoreState × UserRow) :=
  match colUnique users "email" && s.rows.any (fun u => u.email == d.email) with
  | true => .error .StoreConflict
  | false =>
    let u : UserRow :=
      { id := s.nextId, name := d.name, email := d.email,
        password := hashPassword d.password,
        role := d.role.getD ((colDefaultStr users "role").getD ""),
        create_at := now, update_at := now }
    .ok ({ rows := s.rows ++ [u], nextId := s.nextId + 1 }, u)

/-- Modelled from the spec: createUser of section 4.5 (the service code is
not under src/): look the email up, fail with UserAlreadyExists when found,
otherwise hash the password and insert the new user with defaults. -/
def createUser (s : StoreState) (d : SignupData) (now : Nat) :
    Except AuthError (StoreState × UserRow) :=
  match findByEmail s d.email with
  | some _ => .error .UserAlreadyExists
  | none => insertUser s d now

/-- Modelled from the spec: authenticateUser of section 4.5: look the email
up, fail with UserNotFound when absent, compare the password against the
stored hash, fail with InvalidCredentials on mismatch. Read-only. -/
def authenticateUser (s : StoreState) (email password : String) :
    Except AuthError UserRow :=
  match findByEmail s email with
  | none => .error .UserNotFound
  | some u =>
    if comparePassword password u.password then .ok u
    else .error .InvalidCredentials

/-- The raw signup request body before validation; absent fields are none. -/
structure SignupBody where
  name : Option String
  email : Option String
  password : Option String
  role : Option String
deriving DecidableEq, Repr

/-- Modelled from the spec: the role constraint of signup validation, role
restricted to user or admin when supplied. -/
def validRole : Option String → Bool
  | none => true
  | some r => r == "user" || r == "admin"

/-- Modelled from the spec: the signup validation schema (section 4.6 and the
data model of section 3; src/validations/auth.validation.js is not under
src/): name required with 1 to 255 characters, email required and nonempty,
password required, role restricted to user or admin. -/
def parseSignup (b : SignupBody) : Option SignupData :=
  match b.name, b.email, b.password with
  | some n, some e, some p =>
    if 1 ≤ n.length ∧ n.length ≤ 255 ∧ 1 ≤ e.length ∧ validRole b.role = true
    then some { name := n, email := e, password := p, role := b.role }
    else none
  | _, _, _ => none

/-- The three operations of the specified flows. A signup carries its raw
body and the instant at which the insert would run. -/
inductive AuthOp
  | signup (body : SignupBody) (now : Nat)
  | signIn (email password : String)
  | signOut
deriving DecidableEq, Repr

/-- One flow against the store: signup validates and, when validation
passes, runs createUser, keeping the old state on any failure; sign-in only
reads; sign-out never touches the store. -/
def step (s : StoreState) : AuthOp → StoreState
  | .signup b now =>
    match parseSignup b with
    | none => s
    | some d =>
      match createUser s d now with
      | .ok (s2, _) => s2
      | .error _ => s
  | .signIn _ _ => s
  | .signOut => s

/-- A sequence of flows against the store. -/
def run (s : StoreState) (ops : List AuthOp) : StoreState := ops.foldl step s

/-- The store states reachable from the empty store through the specified
flows. -/
inductive Reachable : StoreState → Prop
  | init : Reachable initState
  | next {s : StoreState} (op : AuthOp) : Reachable s → Reachable (step s op)

/-- The number of rows carrying a given email value. -/
def emailCount (s : StoreState) (e : String) : Nat :=
  (s.rows.filter (fun u => u.email == e)).length

/-! ## HTTP-facing definitions -/

/-- The session cookie attributes. -/
structure CookieOptions where
  httpOnly : Bool
  secure : Bool
  sameSite : String
  maxAge : Nat
deriving DecidableEq, Repr

/-- Modelled from the spec: getOptions of src/utils/cookies.js, which is not
under src/ (section 4.4): httpOnly, secure exactly in production, sameSite
strict, maxAge fifteen minutes in milliseconds. -/
def getOptions (env : String) : CookieOptions :=
  { httpOnly := true, secure := env == "production", sameSite := "strict",
    maxAge := 15 * 60 * 1000 }

/-- Modelled from the spec: the router of src/routes/auth.routes.js, which is
not under src/: POST /sign-up to signup, POST /sign-in to signIn,
POST /sign-out to signOut. -/
def authRoutes : List (String × String × String) :=
  [("POST", "/sign-up", "signup"),
   ("POST", "/sign-in", "signIn"),
   ("POST", "/sign-out", "signOut")]

/-- The mount point of the auth router, from app.js: app.use with path
/api/auth and the auth routes. -/
def authMount : String := "/api/auth"

/-- The full paths at which the auth operations are reachable: the router
paths under the mount point. -/
def mountedAuthRoutes : List (String × String × String) :=
  authRoutes.map (fun r => (r.1, authMount ++ r.2.1, r.2.2))

/-- An incoming HTTP request as the handlers see it: headers, parsed
cookies, body. -/
structure HttpRequest where
  headers : List (String × String)
  cookies : List (String × String)
  body : String
deriving DecidableEq, Repr

/-- An outgoing HTTP response: status and body. -/
structure HttpResponse where
  status : Nat
  body : String
deriving DecidableEq, Repr

/-- The GET / handler of src/app.js: respond 200 with the fixed greeting,
ignoring the request entirely. -/
def rootHandler (_r : HttpRequest) : HttpResponse :=
  { status := 200, body := "Hello from acquisitions!" }

/-! ## The PORT computation of src/server.js -/

/-- The fragment of JavaScript values the PORT line manipulates. -/
inductive JsVal
  | num (n : Nat)
  | str (s : String)
  | undefined
deriving DecidableEq, Repr

/-- JavaScript truthiness on that fragment: zero, the empty string and
undefined are falsy. -/
def truthy : JsVal → Bool
  | .num n => n != 0
  | .str s => s != ""
  | .undefined => false

/-- The JavaScript logical-or: the left operand when truthy, else the
right. -/
def jsOr (a b : JsVal) : JsVal := if truthy a then a else b

/-- An environment variable as a JavaScript value: a string when set,
undefined when unset. -/
def envToJs : Option String → JsVal
  | some s => .str s
  | none => .undefined

/-- The PORT computed by src/server.js line 3, which reads
const PORT = 3000 or-else process.env.PORT, with the literal 3000 as the
LEFT operand of the or. -/
def PORT (envPORT : Option String) : JsVal :=
  jsOr (.num 3000) (envToJs envPORT)

/-- Modelled from the spec: the documented port behavior (WARP.md: listens
on PORT from the environment, defaulting to 3000), i.e. the environment
value when set, else 3000. -/
def documentedPort (envPORT : Option String) : JsVal :=
  jsOr (envToJs envPORT) (.num 3000)

/-! ## Concrete states used by witnesses -/

/-- A concrete valid signup body. -/
def annBody : SignupBody :=
  { name := some "Ann", email := some "ann@x.com",
    password := some "Secret123", role := none }

/-- The signup operation for that body, run at instant 5. -/
def annOp : AuthOp := .signup annBody 5

/-- The row that signup inserts for that body at instant 5. -/
def annRow : UserRow :=
  { id := 1, name := "Ann", email := "ann@x.com",
    password := hashPassword "Secret123", role := "user",
    create_at := 5, update_at := 5 }

/-- The store after that signup against the empty store. -/
def annState : StoreState := { rows := [annRow], nextId := 2 }

/-- The validated form of the concrete signup body. -/
def annData : SignupData :=
  { name := "Ann", email := "ann@x.com", password := "Secret123",
    role := none }

/-! ## Helper lemmas -/

/-- Reduction of a step on a signup whose body fails validation. -/
theorem step_signup_invalid {s : StoreState} {b : SignupBody} {now : Nat}
    (hp : parseSignup b = none) : step s (.signup b now) = s := by
  simp [step, hp]

/-- Reduction of a step on a signup whose createUser fails. -/
theorem step_signup_err {s : StoreState} {b : SignupBody} {now : Nat}
    {d : SignupData} {err : AuthError} (hp : parseSignup b = some d)
    (hc : createUser s d now = .error err) : step s (.signup b now) = s := by
  simp [step, hp, hc]

/-- Reduction of a step on a signup whose createUser succeeds. -/
theorem step_signup_ok {s : StoreState} {b : SignupBody} {now : Nat}
    {d : SignupData} {s2 : StoreState} {u : UserRow}
    (hp : parseSignup b = some d) (hc : createUser s d now = .ok (s2, u)) :
    step s (.signup b now) = s2 := by
  simp [step, hp, hc]

/-- A successful createUser appends exactly one row, whose fields come from
the input, the schema defaults and the insertion instant, and can only
happen when the email was absent. -/
theorem createUser_ok_shape {s : StoreState} {d : SignupData} {now : Nat}
    {s2 : StoreState} {u : UserRow}
    (h : createUser s d now = .ok (s2, u)) :
    s2.rows = s.rows ++ [u] ∧ u.email = d.email ∧
    u.role = d.role.getD "user" ∧ u.create_at = now ∧ u.update_at = now ∧
    u.name = d.name ∧ u.id = s.nextId ∧ s2.nextId = s.nextId + 1 ∧
    findByEmail s d.email = none := by
  unfold createUser at h
  cases hf : findByEmail s d.email with
  | some x => rw [hf] at h; cases h
  | none =>
    rw [hf] at h
    unfold insertUser at h
    cases hb : (colUnique users "email" &&
        s.rows.any (fun x => x.email == d.email)) with
    | true => rw [hb] at h; cases h
    | false =>
      rw [hb] at h
      simp only [Except.ok.injEq, Prod.mk.injEq] at h
      obtain ⟨h1, h2⟩ := h
      subst h1
      subst h2
      exact ⟨rfl, rfl, rfl, rfl, rfl, rfl, rfl, rfl, rfl⟩

/-- A createUser against a state already holding the email fails with
UserAlreadyExists. -/
theorem createUser_dup {s : StoreState} {u : UserRow} (hu : u ∈ s.rows)
    (n p : String) (r : Option String) (now : Nat) :
    createUser s { name := n, email := u.email, password := p, role := r }
      now = .error .UserAlreadyExists := by
  simp only [createUser]
  cases hf : findByEmail s u.email with
  | some x => simp [hf]
  | none =>
    unfold findByEmail at hf
    have hx := List.find?_eq_none.mp hf u hu
    simp at hx

/-- A store-level insert against a state already holding the email fails
with the store conflict coming from the UNIQUE constraint. -/
theorem insertUser_dup {s : StoreState} {u : UserRow} (hu : u ∈ s.rows)
    (n p : String) (r : Option String) (now : Nat) :
    insertUser s { name := n, email := u.email, password := p, role := r }
      now = .error .StoreConflict := by
  have hg : (colUnique users "email" &&
      s.rows.any (fun x => x.email == u.email)) = true := by
    have h1 : colUnique users "email" = true := by decide
    have h2 : s.rows.any (fun x => x.email == u.email) = true :=
      List.any_eq_true.mpr ⟨u, hu, by simp⟩
    rw [h1, h2]
    rfl
  simp only [insertUser]
  rw [hg]

/-- The inserted email was fresh: no existing row carries it. -/
theorem createUser_ok_fresh {s : StoreState} {d : SignupData} {now : Nat}
    {s2 : StoreState} {u : UserRow}
    (h : createUser s d now = .ok (s2, u)) :
    ∀ x ∈ s.rows, (x.email == d.email) = false := by
  have hnone := (createUser_ok_shape h).2.2.2.2.2.2.2.2
  unfold findByEmail at hnone
  intro x hx
  have hx2 := List.find?_eq_none.mp hnone x hx
  simpa using hx2

/-- A successful insert preserves the per-email row bound. -/
theorem emailCount_insert {s : StoreState} {d : SignupData} {now : Nat}
    {s2 : StoreState} {u : UserRow}
    (h : createUser s d now = .ok (s2, u))
    (hinv : ∀ e, emailCount s e ≤ 1) : ∀ e, emailCount s2 e ≤ 1 := by
  obtain ⟨hrows, hemail, -⟩ := createUser_ok_shape h
  have hfree := createUser_ok_fresh h
  intro e
  unfold emailCount
  rw [hrows, List.filter_append, List.length_append]
  cases he : u.email == e with
  | false =>
    have hone : List.filter (fun x => x.email == e) [u] = [] := by
      simp [List.filter, he]
    rw [hone]
    simpa [emailCount] using hinv e
  | true =>
    have he2 : u.email = e := eq_of_beq he
    have hde : d.email = e := by rw [← hemail, he2]
    have hnil : s.rows.filter (fun x => x.email == e) = [] := by
      apply List.filter_eq_nil_iff.mpr
      intro x hx
      have hx2 := hfree x hx
      rw [hde] at hx2
      simp [hx2]
    rw [hnil]
    simp [List.filter, he]

/-- One flow step preserves the per-email row bound. -/
theorem emailCount_step {s : StoreState} (op : AuthOp)
    (hinv : ∀ e, emailCount s e ≤ 1) :
    ∀ e, emailCount (step s op) e ≤ 1 := by
  cases op with
  | signIn e p => exact hinv
  | signOut => exact hinv
  | signup b now =>
    cases hp : parseSignup b with
    | none => simpa [step_signup_invalid hp] using hinv
    | some d =>
      cases hc : createUser s d now with
      | error err => simpa [step_signup_err hp hc] using hinv
      | ok out =>
        cases out with
        | mk s2 u =>
          simpa [step_signup_ok hp hc] using emailCount_insert hc hinv

/-- Every reachable state satisfies the per-email row bound. -/
theorem reachable_emailCount {s : StoreState} (hs : Reachable s) :
    ∀ e, emailCount s e ≤ 1 := by
  induction hs with
  | init => intro e; simp [emailCount, initState]
  | next op hpred ih => exact emailCount_step op ih

/-- Bounds extracted from a successful signup validation. -/
theorem parseSignup_name_bounds {b : SignupBody} {d : SignupData}
    (h : parseSignup b = some d) :
    1 ≤ d.name.length ∧ d.name.length ≤ 255 := by
  unfold parseSignup at h
  split at h
  · split at h
    · cases h
      rename_i hguard
      exact ⟨hguard.1, hguard.2.1⟩
    · cases h
  · cases h

/-- One flow step preserves the name-length bound on every stored row. -/
theorem nameBound_step {s : StoreState} (op : AuthOp)
    (hinv : ∀ u, u ∈ s.rows → 1 ≤ u.name.length ∧ u.name.length ≤ 255) :
    ∀ u, u ∈ (step s op).rows →
      1 ≤ u.name.length ∧ u.name.length ≤ 255 := by
  cases op with
  | signIn e p => exact hinv
  | signOut => exact hinv
  | signup b now =>
    cases hp : parseSignup b with
    | none => simpa [step_signup_invalid hp] using hinv
    | some d =>
      cases hc : createUser s d now with
      | error err => simpa [step_signup_err hp hc] using hinv
      | ok out =>
        cases out with
        | mk s2 u0 =>
          simp only [step_signup_ok hp hc]
          intro u hu
          obtain ⟨hrows, -, -, -, -, hname, -⟩ := createUser_ok_shape hc
          rw [hrows] at hu
          rcases List.mem_append.mp hu with h1 | h2
          · exact hinv u h1
          · have hu0 : u = u0 := by simpa using h2
            subst hu0
            rw [hname]
            exact parseSignup_name_bounds hp

/-- One flow step only ever appends rows. -/
theorem step_appends (s : StoreState) (op : AuthOp) :
    ∃ t, (step s op).rows = s.rows ++ t := by
  cases op with
  | signIn e p => exact ⟨[], by simp [step]⟩
  | signOut => exact ⟨[], by simp [step]⟩
  | signup b now =>
    cases hp : parseSignup b with
    | none => exact ⟨[], by simp [step_signup_invalid hp]⟩
    | some d =>
      cases hc : createUser s d now with
      | error err => exact ⟨[], by simp [step_signup_err hp hc]⟩
      | ok out =>
        cases out with
        | mk s2 u =>
          refine ⟨[u], ?_⟩
          rw [step_signup_ok hp hc]
          exact (createUser_ok_shape hc).1

/-! ## Claim theorems -/

/-- C1: in every reachable state of the store at most one user row exists
per email value, and an insert whose email equals an existing row's email is
rejected — by createUser with UserAlreadyExists and by the store-level
insert with the conflict of the UNIQUE constraint — rather than producing a
second row. -/
theorem users_email_unique (s : StoreState) (hs : Reachable s) :
    (∀ e, emailCount s e ≤ 1) ∧
    (∀ u, u ∈ s.rows → ∀ (n p : String) (r : Option String) (now : Nat),
      createUser s { name := n, email := u.email, password := p, role := r }
        now = .error .UserAlreadyExists ∧
      insertUser s { name := n, email := u.email, password := p, role := r }
        now = .error .StoreConflict) := by
  refine ⟨reachable_emailCount hs, ?_⟩
  intro u hu n p r now
  exact ⟨createUser_dup hu n p r now, insertUser_dup hu n p r now⟩

/-- C1 witness: the concrete one-signup state is reachable, holds at most
one row for the email, and rejects a second signup with the same email. -/
theorem users_email_unique_witness :
    emailCount (step initState annOp) "ann@x.com" ≤ 1 ∧
    createUser (step initState annOp)
      { name := "Bob", email := "ann@x.com", password := "pw", role := none }
      9 = .error .UserAlreadyExists :=
  ⟨(users_email_unique _ (Reachable.next annOp Reachable.init)).1 "ann@x.com",
   ((users_email_unique _ (Reachable.next annOp Reachable.init)).2
      annRow (by decide) "Bob" "pw" none 9).1⟩

/-- C2 (code bug): src/server.js line 3 places the literal 3000 as the LEFT
operand of the JavaScript or, so the computed PORT is 3000 for every
environment; the documented behavior (the environment value when set, 3000
only as default) differs already at PORT = 8080. -/
theorem PORT_always_3000 :
    PORT (some "8080") = JsVal.num 3000 ∧
    documentedPort (some "8080") = JsVal.str "8080" ∧
    PORT (some "8080") ≠ documentedPort (some "8080") ∧
    ∀ env, PORT env = JsVal.num 3000 := by
  refine ⟨rfl, rfl, by decide, fun env => rfl⟩

/-- C3: the users schema realises the specification relation column by
column — id serial primary key, name varchar(256) not null, email
varchar(256) not null unique, password varchar(512) not null, role
varchar(50) not null defaulting to user, create_at and update_at timestamps
defaulting to now() — and a row inserted without an explicit role has
role user. -/
theorem users_schema_matches_spec :
    tableConforms users specUsers = true ∧
    ∀ (s : StoreState) (n e p : String) (now : Nat) (s2 : StoreState)
      (u : UserRow),
      insertUser s { name := n, email := e, password := p, role := none }
        now = .ok (s2, u) → u.role = "user" := by
  refine ⟨by decide, ?_⟩
  intro s n e p now s2 u h
  simp only [insertUser] at h
  cases hb : (colUnique users "email" &&
      s.rows.any (fun x => x.email == e)) with
  | true => rw [hb] at h; cases h
  | false =>
    rw [hb] at h
    simp only [Except.ok.injEq, Prod.mk.injEq] at h
    obtain ⟨h1, h2⟩ := h
    subst h2
    rfl

/-- C3 witness: inserting the concrete signup data, which carries no role,
yields a row whose role is user. -/
theorem users_schema_matches_spec_witness : annRow.role = "user" :=
  users_schema_matches_spec.2 initState "Ann" "ann@x.com" "Secret123" 5
    annState annRow rfl

/-- C4: the auth operations are reachable exactly at POST /api/auth/sign-up,
POST /api/auth/sign-in and POST /api/auth/sign-out: the three router paths
placed under the fixed /api/auth mount, and no others. -/
theorem auth_routes_mounted :
    mountedAuthRoutes =
      [("POST", "/api/auth/sign-up", "signup"),
       ("POST", "/api/auth/sign-in", "signIn"),
       ("POST", "/api/auth/sign-out", "signOut")] := by
  rfl

/-- C5: for every environment the base cookie options are httpOnly, secure
exactly when the environment is production, sameSite strict, and a maxAge of
fifteen minutes in milliseconds. -/
theorem getOptions_spec (env : String) :
    (getOptions env).httpOnly = true ∧
    ((getOptions env).secure = true ↔ env = "production") ∧
    (getOptions env).sameSite = "strict" ∧
    (getOptions env).maxAge = 15 * 60 * 1000 := by
  refine ⟨rfl, ?_, rfl, rfl⟩
  simp [getOptions]

/-- C6: every row created by signup has both timestamps set at creation:
create_at and update_at equal the insertion instant (the signup input
carries no timestamp field at all), and the row is stored with them. -/
theorem signup_sets_timestamps {s : StoreState} {d : SignupData} {now : Nat}
    {s2 : StoreState} {u : UserRow}
    (h : createUser s d now = .ok (s2, u)) :
    u.create_at = now ∧ u.update_at = now ∧ u ∈ s2.rows := by
  obtain ⟨hrows, -, -, hca, hua, -⟩ := createUser_ok_shape h
  refine ⟨hca, hua, ?_⟩
  rw [hrows]
  exact List.mem_append_right _ (List.mem_singleton.mpr rfl)

/-- C6 witness: the concrete signup at instant 5 stores its row with both
timestamps equal to 5. -/
theorem signup_sets_timestamps_witness :
    annRow.create_at = 5 ∧ annRow.update_at = 5 ∧ annRow ∈ annState.rows :=
  signup_sets_timestamps
    (show createUser initState annData 5 = .ok (annState, annRow) from rfl)

/-- C7: in every reachable store state, every stored user has a name of
between 1 and 255 characters inclusive: never empty, never longer
than 255. -/
theorem stored_name_length {s : StoreState} (hs : Reachable s) :
    ∀ u, u ∈ s.rows → 1 ≤ u.name.length ∧ u.name.length ≤ 255 := by
  induction hs with
  | init => intro u hu; simp [initState] at hu
  | next op hpred ih => exact nameBound_step op ih

/-- C7 witness: in the concrete one-signup state the stored name has
between 1 and 255 characters. -/
theorem stored_name_length_witness :
    1 ≤ annRow.name.length ∧ annRow.name.length ≤ 255 :=
  stored_name_length (Reachable.next annOp Reachable.init) annRow (by decide)

/-- C8: no sequence of the specified flows updates or deletes a row: a run
only ever appends rows (the signup inserts), and a sign-in or sign-out step
leaves the store exactly unchanged, so every previously inserted row is
still present, unchanged, afterwards. -/
theorem flows_never_update_or_delete (s : StoreState) (ops : List AuthOp) :
    (∃ t, (run s ops).rows = s.rows ++ t) ∧
    (∀ e p, step s (.signIn e p) = s) ∧ step s .signOut = s := by
  refine ⟨?_, fun e p => rfl, rfl⟩
  induction ops generalizing s with
  | nil => exact ⟨[], (List.append_nil _).symm⟩
  | cons op rest ih =>
    obtain ⟨t0, ht0⟩ := step_appends s op
    obtain ⟨t, ht⟩ := ih (step s op)
    refine ⟨t0 ++ t, ?_⟩
    have hrun : run s (op :: rest) = run (step s op) rest := rfl
    rw [hrun, ht, ht0, List.append_assoc]

/-- C9: the GET / handler is deterministic and input-independent: any two
requests receive identical responses, status 200 with the fixed greeting
text. -/
theorem rootHandler_constant (r1 r2 : HttpRequest) :
    rootHandler r1 = rootHandler r2 ∧
    (rootHandler r1).status = 200 ∧
    (rootHandler r1).body = "Hello from acquisitions!" :=
  ⟨rfl, rfl, rfl⟩

end Acquisitions
